import Mathlib

/-
Verification of the mythril batch-analysis scripts:
  scripts/mythril/run_mythril.py      (target discovery, completion tracking,
                                       single-contract analysis, batch orchestration)
  scripts/mythril/generate_summary.py (tolerant JSON extraction, categorization)

The Python code is shallowly embedded: JSON values are an inductive type,
`json.loads` is a recursive-descent parser, `json.dump` a renderer, the
filesystem is a map from report names to file contents, and the outcome of the
external mythril subprocess is an explicit `Outcome` value.
-/

namespace Mythril

/-- JSON values as produced by Python's `json.loads`.  Numbers are restricted to
integers in this model (none of the artifacts involved in the claims contain
floats).  Objects keep their members in source order; duplicate keys are
resolved by `lookupLast`, matching Python dict semantics (the last occurrence
of a key wins). -/
inductive Json where
  | null : Json
  | bool : Bool → Json
  | num : Int → Json
  | str : String → Json
  | arr : List Json → Json
  | obj : List (String × Json) → Json

/-- Python truthiness of a JSON value: `None`, `False`, `0`, `""`, `[]` and
an empty dict are falsy, everything else is truthy. -/
def Json.truthy : Json → Bool
  | .null => false
  | .bool b => b
  | .num n => n != 0
  | .str s => s != ""
  | .arr l => !l.isEmpty
  | .obj ms => !ms.isEmpty

/-- Lookup in an object member list with Python dict semantics: when a key is
repeated, `json.loads` keeps the last occurrence. -/
def lookupLast (ms : List (String × Json)) (k : String) : Option Json :=
  ms.foldl (fun acc p => if p.1 = k then some p.2 else acc) none

/-- Model of Python's `dict.get(k, default)` applied to a decoded JSON object. -/
def Json.getD (j : Json) (k : String) (default : Json) : Json :=
  match j with
  | .obj ms => (lookupLast ms k).getD default
  | _ => default

def lbrace : Char := Char.ofNat 123

def rbrace : Char := Char.ofNat 125

def dquote : Char := Char.ofNat 34

def bslash : Char := Char.ofNat 92

/-- JSON insignificant whitespace (the four characters the `json` module skips). -/
def jsonWs (c : Char) : Bool := c = ' ' || c = '\t' || c = '\n' || c = '\r'

def skipWs : List Char → List Char
  | [] => []
  | c :: cs => if jsonWs c then skipWs cs else c :: cs

/-- Parse the body of a JSON string literal (the opening quote already
consumed), returning the decoded characters and the rest of the input.
Handles the simple escape sequences; `\uXXXX` escapes are not modelled
(no artifact in the claims uses them). -/
def parseStringBody : List Char → Option (List Char × List Char)
  | [] => none
  | c :: cs =>
    if c = dquote then some ([], cs)
    else if c = bslash then
      match cs with
      | [] => none
      | e :: cs' =>
        let dec : Option Char :=
          if e = dquote then some dquote
          else if e = bslash then some bslash
          else if e = '/' then some '/'
          else if e = 'n' then some '\n'
          else if e = 't' then some '\t'
          else if e = 'r' then some '\r'
          else if e = 'b' then some (Char.ofNat 8)
          else if e = 'f' then some (Char.ofNat 12)
          else none
        match dec with
        | none => none
        | some d => (parseStringBody cs').map (fun r => (d :: r.1, r.2))
    else (parseStringBody cs).map (fun r => (c :: r.1, r.2))

/-- Consume leading decimal digits, accumulating their value. -/
def takeDigits (acc : Nat) : List Char → Nat × List Char
  | [] => (acc, [])
  | c :: cs => if c.isDigit then takeDigits (acc * 10 + (c.toNat - 48)) cs else (acc, c :: cs)

/-- Parse a JSON integer (optional minus sign, then digits).  Fractions and
exponents are not modelled; no artifact in the claims contains them. -/
def parseNumber (cs : List Char) : Option (Json × List Char) :=
  match cs with
  | [] => none
  | c :: rest =>
    if c = '-' then
      match rest with
      | d :: _ =>
        if d.isDigit then
          let r := takeDigits 0 rest
          some (.num (-(r.1 : Int)), r.2)
        else none
      | [] => none
    else if c.isDigit then
      let r := takeDigits 0 cs
      some (.num (r.1 : Int), r.2)
    else none

mutual

/-- Fuel-indexed recursive-descent parser for one JSON value, the model of the
`json` module's decoder.  Returns the value and the unconsumed input. -/
def parseValue : Nat → List Char → Option (Json × List Char)
  | 0, _ => none
  | Nat.succ fuel, cs =>
    match skipWs cs with
    | [] => none
    | c :: rest =>
      if c = lbrace then parseObjBody fuel (skipWs rest)
      else if c = '[' then parseArrBody fuel (skipWs rest)
      else if c = dquote then (parseStringBody rest).map (fun r => (.str (String.mk r.1), r.2))
      else if c = 't' then
        match rest with
        | 'r' :: 'u' :: 'e' :: r2 => some (.bool true, r2)
        | _ => none
      else if c = 'f' then
        match rest with
        | 'a' :: 'l' :: 's' :: 'e' :: r2 => some (.bool false, r2)
        | _ => none
      else if c = 'n' then
        match rest with
        | 'u' :: 'l' :: 'l' :: r2 => some (.null, r2)
        | _ => none
      else if c = '-' || c.isDigit then parseNumber (c :: rest)
      else none

/-- Parse an array body (the opening bracket and following whitespace already
consumed). -/
def parseArrBody : Nat → List Char → Option (Json × List Char)
  | 0, _ => none
  | Nat.succ fuel, cs =>
    match cs with
    | [] => none
    | c :: rest =>
      if c = ']' then some (.arr [], rest)
      else
        match parseValue fuel cs with
        | none => none
        | some (v, cs1) => parseArrRest fuel [v] cs1

/-- Parse the remaining elements of an array after at least one element. -/
def parseArrRest : Nat → List Json → List Char → Option (Json × List Char)
  | 0, _, _ => none
  | Nat.succ fuel, acc, cs =>
    match skipWs cs with
    | [] => none
    | c :: rest =>
      if c = ',' then
        match parseValue fuel rest with
        | none => none
        | some (v, cs1) => parseArrRest fuel (acc ++ [v]) cs1
      else if c = ']' then some (.arr acc, rest)
      else none

/-- Parse an object body (the opening brace and following whitespace already
consumed). -/
def parseObjBody : Nat → List Char → Option (Json × List Char)
  | 0, _ => none
  | Nat.succ fuel, cs =>
    match cs with
    | [] => none
    | c :: rest =>
      if c = rbrace then some (.obj [], rest)
      else if c = dquote then
        match parseStringBody rest with
        | none => none
        | some (k, cs1) =>
          match skipWs cs1 with
          | [] => none
          | c2 :: cs2 =>
            if c2 = ':' then
              match parseValue fuel cs2 with
              | none => none
              | some (v, cs3) => parseObjRest fuel [(String.mk k, v)] cs3
            else none
      else none

/-- Parse the remaining members of an object after at least one member. -/
def parseObjRest : Nat → List (String × Json) → List Char → Option (Json × List Char)
  | 0, _, _ => none
  | Nat.succ fuel, acc, cs =>
    match skipWs cs with
    | [] => none
    | c :: rest =>
      if c = rbrace then some (.obj acc, rest)
      else if c = ',' then
        match skipWs rest with
        | [] => none
        | c2 :: cs2 =>
          if c2 = dquote then
            match parseStringBody cs2 with
            | none => none
            | some (k, cs3) =>
              match skipWs cs3 with
              | [] => none
              | c3 :: cs4 =>
                if c3 = ':' then
                  match parseValue fuel cs4 with
                  | none => none
                  | some (v, cs5) => parseObjRest fuel (acc ++ [(String.mk k, v)]) cs5
                else none
          else none
      else none

end

/-- Model of `json.loads`: parse a complete JSON document, requiring that only
whitespace follows the value ("Extra data" is a decode error in Python). -/
def jsonLoads (s : String) : Option Json :=
  match parseValue (s.toList.length + 2) s.toList with
  | some (v, rest) => if (skipWs rest).isEmpty then some v else none
  | none => none

/-- Fuel-indexed little-endian decimal digit extraction (structural so that it
evaluates definitionally).  With sufficient fuel it emits the decimal digits
of `n`, least significant first, and is never empty. -/
def natDigitsRevCore (fuel : Nat) (n : Nat) : List Nat :=
  match fuel with
  | 0 => []
  | fuel + 1 => if n < 10 then [n] else n % 10 :: natDigitsRevCore fuel (n / 10)

/-- Little-endian decimal digits of a natural number; never empty, so
`natDigitsRev 0 = [0]`. -/
def natDigitsRev (n : Nat) : List Nat := natDigitsRevCore (n + 1) n

/-- Value of a little-endian digit list. -/
def digitsVal : List Nat → Nat
  | [] => 0
  | d :: ds => d + 10 * digitsVal ds

def digitChar10 (d : Nat) : Char := Char.ofNat (48 + d)

/-- Model of Python's decimal rendering `str(n)` of a nonnegative integer
(as used by f-string interpolation of `len(...)` and of the timeout budget). -/
def pyIntStr (n : Nat) : String :=
  String.mk ((natDigitsRev n).reverse.map digitChar10)

/-- Escape one character for a JSON string literal, as `json.dump` does. -/
def escapeChar (c : Char) : List Char :=
  if c = dquote then [bslash, dquote]
  else if c = bslash then [bslash, bslash]
  else if c = '\n' then [bslash, 'n']
  else if c = '\t' then [bslash, 't']
  else if c = '\r' then [bslash, 'r']
  else [c]

def renderString (s : String) : String :=
  String.mk (dquote :: (s.toList.map escapeChar).flatten ++ [dquote])

mutual

/-- Model of `json.dump`: serialize a JSON value.  The Python call uses
`indent=2`; this model renders compactly, which is value-equivalent (the two
texts decode to the same JSON value, and no claim inspects the whitespace of a
dumped artifact). -/
def render : Json → String
  | .null => "null"
  | .bool b => if b then "true" else "false"
  | .num n => toString n
  | .str s => renderString s
  | .arr l => "[" ++ renderElems l ++ "]"
  | .obj ms => String.mk [lbrace] ++ renderMembers ms ++ String.mk [rbrace]

def renderElems : List Json → String
  | [] => ""
  | [v] => render v
  | v :: rest => render v ++ ", " ++ renderElems rest

def renderMembers : List (String × Json) → String
  | [] => ""
  | [(k, v)] => renderString k ++ ": " ++ render v
  | (k, v) :: rest => renderString k ++ ": " ++ render v ++ ", " ++ renderMembers rest

end

/-- Boolean prefix test on character lists (Python `str.startswith`, used to
build the substring test). -/
def isPrefixB : List Char → List Char → Bool
  | [], _ => true
  | _ :: _, [] => false
  | a :: as, b :: bs => a = b && isPrefixB as bs

/-- Boolean contiguous-substring test: model of Python's `needle in haystack`
for strings. -/
def isInfixB (needle : List Char) : List Char → Bool
  | [] => needle.isEmpty
  | c :: t => isPrefixB needle (c :: t) || isInfixB needle t

/-- Python's `in` operator on strings: substring containment. -/
def strContains (needle hay : String) : Bool := isInfixB needle.toList hay.toList

/-- Python's `in` operator applied to an arbitrary JSON value on the right:
substring test on strings, membership on arrays (string-to-element equality),
key membership on objects; a `TypeError` (modelled as `none`) otherwise. -/
def pyIn (phrase : String) : Json → Option Bool
  | .str s => some (strContains phrase s)
  | .arr l => some (l.any fun v => match v with | .str s => s = phrase | _ => false)
  | .obj ms => some (ms.any fun p => p.1 = phrase)
  | _ => none

/-- Python's `len` applied to a JSON value: defined on strings, arrays and
objects; a `TypeError` (modelled as `none`) otherwise. -/
def pyLen : Json → Option Nat
  | .str s => some s.length
  | .arr l => some l.length
  | .obj ms => some ms.length
  | _ => none

/-! ## Model of `scripts/mythril/run_mythril.py` -/

/-- The path exclude patterns of `MythrilRunner.get_all_contracts`. -/
def exclude_patterns : List String :=
  ["*/mocks/*", "*/testing/*", "*/dependencies/*", "*/dlend/*", "*/interface/*", "*/interfaces/*"]

/-- The filename exclude patterns of `MythrilRunner.get_all_contracts`. -/
def exclude_filename_patterns : List String :=
  ["Mock", "mock", "Test", "test", "Fake", "fake"]

/-- Python's `pattern.replace("*", "")`: drop every asterisk. -/
def stripStars (p : String) : String := String.mk (p.toList.filter (fun c => c ≠ '*'))

/-- The path check of `get_all_contracts`:
`any(part in pattern.replace("*", "") for part in relative_path.parts)` for some
exclude pattern — i.e. some path segment is a substring of the de-starred
pattern (note the direction of the containment test). -/
def matchesPathPatterns (parts : List String) : Bool :=
  exclude_patterns.any fun pat => parts.any fun part => strContains part (stripStars pat)

/-- The filename check of `get_all_contracts`: the stem contains one of the
mock/test/fake tokens. -/
def matchesFilenamePatterns (stem : String) : Bool :=
  exclude_filename_patterns.any fun pat => strContains pat stem

/-- The interface-naming check of `get_all_contracts`:
`filename.startswith('I') and len(filename) > 1 and filename[1].isupper()`. -/
def isInterfaceStem (stem : String) : Bool :=
  match stem.toList with
  | 'I' :: c :: _ => c.isUpper
  | _ => false

/-- One discovered `.sol` file: its path split into segments relative to the
repository root, its stem (filename without extension), and its source text
(`none` when reading the file raises). -/
structure SourceFile where
  parts : List String
  stem : String
  content : Option String
deriving DecidableEq, Repr

/-- The per-file filter of `get_all_contracts`: path patterns, then filename
patterns, then content inspection (unreadable files and files containing
`abstract contract` are skipped, as are interface-named stems). -/
def keepContract (f : SourceFile) : Bool :=
  if matchesPathPatterns f.parts then false
  else if matchesFilenamePatterns f.stem then false
  else
    match f.content with
    | none => false
    | some content =>
      if strContains "abstract contract" content then false
      else if isInterfaceStem f.stem then false
      else true

/-- Character-list lexicographic strict order (ordering of Python strings). -/
def charsLt : List Char → List Char → Bool
  | [], [] => false
  | [], _ :: _ => true
  | _ :: _, [] => false
  | a :: as, b :: bs => if a = b then charsLt as bs else decide (a.toNat < b.toNat)

/-- Pathlib paths compare by their tuple of segments. -/
def partsLt : List String → List String → Bool
  | [], [] => false
  | [], _ :: _ => true
  | _ :: _, [] => false
  | a :: as, b :: bs => if a = b then partsLt as bs else charsLt a.toList b.toList

def insertFile (f : SourceFile) : List SourceFile → List SourceFile
  | [] => [f]
  | g :: gs => if partsLt g.parts f.parts then g :: insertFile f gs else f :: g :: gs

/-- Sorting of the surviving contracts (`sorted(all_contracts)`). -/
def sortFiles : List SourceFile → List SourceFile
  | [] => []
  | f :: fs => insertFile f (sortFiles fs)

/-- Model of `MythrilRunner.get_all_contracts`: keep the files surviving all
exclusion checks, sorted by path. -/
def get_all_contracts (files : List SourceFile) : List SourceFile :=
  sortFiles (files.filter keepContract)

/-- The state of the `reports/mythril` directory: `artifacts stem` is the
content of `reports/mythril/<stem>.json` (if the file exists) and
`errorFiles stem` the content of `reports/mythril/<stem>_error.txt`. -/
structure FS where
  artifacts : String → Option String
  errorFiles : String → Option String

def emptyFS : FS := ⟨fun _ => none, fun _ => none⟩

def updateMap (f : String → Option String) (k v : String) : String → Option String :=
  fun x => if x = k then some v else f x

/-- The completion-tracking test `data.get('success') is False`: only the JSON
literal `false` satisfies Python's identity test against `False`. -/
def successIsFalse (ms : List (String × Json)) : Bool :=
  match lookupLast ms "success" with
  | some (.bool false) => true
  | _ => false

/-- The completion-tracking test `data.get('error') and data.get('error') != None`:
the error value must be present and truthy (the `!= None` conjunct is redundant
once the value is truthy). -/
def errorTruthy (ms : List (String × Json)) : Bool :=
  match lookupLast ms "error" with
  | some v => v.truthy
  | none => false

/-- The per-artifact classification inside `MythrilRunner.get_analyzed_contracts`:
parse the full content strictly; a decode failure, an explicit `success: false`,
or a truthy `error` value marks the artifact as a failed analysis to be re-run;
anything else counts as analyzed. -/
def artifactAnalyzed (content : String) : Bool :=
  match jsonLoads content with
  | none => false
  | some (.obj ms) => !successIsFalse ms && !errorTruthy ms
  | some _ => true

/-- Model of `MythrilRunner.get_analyzed_contracts` membership: a stem is in
the analyzed set when its artifact file exists and classifies as analyzed. -/
def isAnalyzed (fs : FS) (stem : String) : Bool :=
  match fs.artifacts stem with
  | some content => artifactAnalyzed content
  | none => false

/-- The deterministic artifact path for a target
(`reports/mythril/<stem>.json`). -/
def outputPath (stem : String) : String := "reports/mythril/" ++ stem ++ ".json"

/-- The outcome of the external mythril subprocess invocation for one target:
normal completion with an exit code, stdout, stderr and an elapsed wall time;
expiry of the wall-clock ceiling (`subprocess.TimeoutExpired`); any other
exception caught by the handler (`except Exception`); or an exception that
escapes `analyze_single_contract` itself (for example the output-file write
inside a handler failing), which only the batch orchestrator catches. -/
inductive Outcome where
  | completed (returncode : Int) (stdout stderr : String) (elapsed : Nat)
  | timedOut
  | raised (msg : String)
  | escaped (msg : String)

def Outcome.isEscaped : Outcome → Bool
  | .escaped _ => true
  | _ => false

def Outcome.escapeMsg : Outcome → String
  | .escaped m => m
  | _ => ""

/-- The per-target result dictionary returned by `analyze_single_contract`
(and, for the `failed` case, built by `run_batch_analysis`). -/
structure AnalysisRecord where
  contract : String
  path : String
  status : String
  analysis_time : Nat
  output_file : Option String
  error : Option String
deriving DecidableEq, Repr

/-- The structured failure record persisted on `subprocess.TimeoutExpired`. -/
def timeoutArtifact (timeout : Nat) : Json :=
  .obj [("success", .bool false),
        ("error", .str ("Analysis timed out after " ++ pyIntStr timeout ++ " seconds")),
        ("issues", .arr [])]

/-- The structured failure record persisted on any other caught exception. -/
def exceptionArtifact (msg : String) : Json :=
  .obj [("success", .bool false),
        ("error", .str ("Exception during analysis: " ++ msg)),
        ("issues", .arr [])]

/-- Model of `MythrilRunner.analyze_single_contract`.  On completion the raw
stdout is written verbatim to the artifact (plus a `<stem>_error.txt`
diagnostic when the exit code is nonzero and stderr is nonempty); on timeout or
on a caught exception a synthesized failure record is dumped instead.  `none`
models an exception escaping the function (nothing is written). -/
def analyze_single_contract (stem relPath : String) (timeout : Nat) (o : Outcome)
    (fs : FS) : Option (AnalysisRecord × FS) :=
  match o with
  | .completed rc stdout stderr elapsed =>
    let fs1 : FS := { fs with artifacts := updateMap fs.artifacts stem stdout }
    let fs2 : FS :=
      if rc ≠ 0 ∧ stderr ≠ "" then
        { fs1 with errorFiles := updateMap fs1.errorFiles stem ("STDOUT:\n" ++ stdout ++ "\n\nSTDERR:\n" ++ stderr) }
      else fs1
    some ({ contract := stem, path := relPath,
            status := if rc = 0 then "success" else "error",
            analysis_time := elapsed,
            output_file := some (outputPath stem), error := none }, fs2)
  | .timedOut =>
    some ({ contract := stem, path := relPath, status := "timeout",
            analysis_time := timeout,
            output_file := some (outputPath stem), error := none },
          { fs with artifacts :=
              updateMap fs.artifacts stem (render (timeoutArtifact timeout)) })
  | .raised msg =>
    some ({ contract := stem, path := relPath, status := "exception",
            analysis_time := 0,
            output_file := some (outputPath stem), error := none },
          { fs with artifacts :=
              updateMap fs.artifacts stem (render (exceptionArtifact msg)) })
  | .escaped _ => none

/-- One analysis target as submitted to the batch: its stem and its path
relative to the repository root. -/
structure Contract where
  stem : String
  relPath : String
deriving DecidableEq, Repr

/-- The record built in `run_batch_analysis` when `future.result()` raises:
status `failed`, no output-file key, the exception text under `error`. -/
def failedRecord (c : Contract) (msg : String) : AnalysisRecord :=
  { contract := c.stem, path := c.relPath, status := "failed",
    analysis_time := 0, output_file := none, error := some msg }

/-- One step of the batch: run `analyze_single_contract` for one target and
append its record, converting an escaped exception into a `failed` record
without touching the filesystem. -/
def batchStep (timeout : Nat) (env : Contract → Outcome)
    (acc : List AnalysisRecord × FS) (c : Contract) : List AnalysisRecord × FS :=
  match analyze_single_contract c.stem c.relPath timeout (env c) acc.2 with
  | some (rec, fs') => (acc.1 ++ [rec], fs')
  | none => (acc.1 ++ [failedRecord c ((env c).escapeMsg)], acc.2)

/-- The result of a batch run: the collected records, the final report
directory state, and the list of targets actually dispatched to the external
tool (the targets remaining after the skip filter). -/
structure BatchResult where
  records : List AnalysisRecord
  fs : FS
  dispatched : List Contract

/-- Model of `MythrilRunner.run_batch_analysis`: optionally filter out targets
already in the completion set, then run every remaining target.  Workers own
disjoint artifact paths, so the unordered thread-pool execution is modelled as
a fold; `env` gives the subprocess outcome for each target. -/
def run_batch_analysis (contracts : List Contract) (skip_analyzed : Bool)
    (timeout : Nat) (env : Contract → Outcome) (fs : FS) : BatchResult :=
  let toAnalyze :=
    if skip_analyzed then contracts.filter (fun c => !isAnalyzed fs c.stem)
    else contracts
  let p := toAnalyze.foldl (batchStep timeout env) ([], fs)
  ⟨p.1, p.2, toAnalyze⟩

/-! ## Model of `scripts/mythril/generate_summary.py` -/

/-- Python's `content.find('{')`: index of the first opening brace. -/
def firstBraceIdx (content : String) : Option Nat :=
  content.toList.findIdx? (fun c => c = lbrace)

/-- Python's `content.rfind('}')`: index of the last closing brace. -/
def lastBraceIdx (content : String) : Option Nat :=
  match content.toList.reverse.findIdx? (fun c => c = rbrace) with
  | none => none
  | some k => some (content.toList.length - 1 - k)

/-- Python's slice `content[a:b]` (for indices within range). -/
def sliceStr (content : String) (a b : Nat) : String :=
  String.mk ((content.toList.drop a).take (b - a))

/-- Model of `extract_json_from_file` on the file's content: locate the first
opening brace and the last closing brace, decode only that substring, and
return the parsed value together with an error message (empty iff extraction
succeeded).  File read failures are outside this model; the decode-error
message text stands in for Python's `str(e)`. -/
def extract_json_from_file (content : String) : Json × String :=
  match firstBraceIdx content with
  | none => (.obj [], "No JSON content found")
  | some i =>
    match lastBraceIdx content with
    | none => (.obj [], "No valid JSON end found")
    | some j =>
      match jsonLoads (sliceStr content i (j + 1)) with
      | some v => (v, "")
      | none => (.obj [], "JSON decode error")

/-- Model of `categorize_result`.  `none` models a Python `TypeError` raised
by `in` or `len` on an unsupported operand (no artifact in the claims triggers
one). -/
def categorize_result (result : Json) : Option String :=
  if !result.truthy then some "Parse Error"
  else
    match result with
    | .obj ms =>
      let success := (lookupLast ms "success").getD (.bool false)
      let error := (lookupLast ms "error").getD .null
      let issues := (lookupLast ms "issues").getD (.arr [])
      if !success.truthy && error.truthy then
        match pyIn "Solc experienced a fatal error" error with
        | none => none
        | some true => some "Compilation Error"
        | some false =>
          match pyIn "ParserError" error with
          | none => none
          | some true => some "Parser Error"
          | some false =>
            match pyIn "SolidityVersionMismatch" error with
            | none => none
            | some true => some "Version Mismatch"
            | some false => some "Analysis Error"
      else if success.truthy && !issues.truthy then some "Success (No Issues)"
      else if success.truthy && issues.truthy then
        match pyLen issues with
        | some n => some ("Success (" ++ pyIntStr n ++ " Issues)")
        | none => none
      else some "Unknown"
    | _ => none

/-- The category assigned to one artifact file by `generate_summary_table`:
`Parse Error` when tolerant extraction reports an error, otherwise the
result of `categorize_result` on the extracted payload. -/
def summaryItemCategory (content : String) : Option String :=
  let r := extract_json_from_file content
  if r.2 ≠ "" then some "Parse Error" else categorize_result r.1

/-! ## Spec-side definitions (used only to compare the spec's wording with the
code where a claim diverges) -/

/-- Modelled from the spec: the completion-tracking retry condition as the
specification words it — "decode fails, OR the content is a mapping containing
an explicit negative success flag, OR it contains a non-null error value".
The code (`artifactAnalyzed`) instead requires the error value to be truthy. -/
def specRetryEligible (content : String) : Prop :=
  jsonLoads content = none
  ∨ (∃ ms, jsonLoads content = some (Json.obj ms)
        ∧ lookupLast ms "success" = some (Json.bool false))
  ∨ (∃ ms v, jsonLoads content = some (Json.obj ms)
        ∧ lookupLast ms "error" = some v ∧ v ≠ Json.null)

/-- The code-accurate retry condition: decode failure, explicit
`success: false`, or a truthy error value. -/
def retryEligible (content : String) : Prop :=
  jsonLoads content = none
  ∨ (∃ ms, jsonLoads content = some (Json.obj ms)
        ∧ lookupLast ms "success" = some (Json.bool false))
  ∨ (∃ ms v, jsonLoads content = some (Json.obj ms)
        ∧ lookupLast ms "error" = some v ∧ v.truthy = true)

/-- A batch outcome whose artifact reflects a clean success: the subprocess
completed and its stdout classifies as analyzed by completion tracking. -/
def goodOutcome (o : Outcome) : Prop :=
  ∃ rc stdout stderr elapsed,
    o = .completed rc stdout stderr elapsed ∧ artifactAnalyzed stdout = true

/-- The artifact text of the tolerant-decode example: banner text before the
JSON object and junk after it. -/
def tolerantExample : String :=
  "garbage before \x7b\"success\": true, \"issues\": []\x7d trailing junk"

/-- A concrete target used in counterexamples and witnesses. -/
def cFoo : Contract := ⟨"Foo", "contracts/Foo.sol"⟩

/-- An outcome environment in which every invocation times out. -/
def timeoutEnv : Contract → Outcome := fun _ => .timedOut

/-- An outcome environment in which every worker raises an exception that
escapes `analyze_single_contract`. -/
def escapeEnv : Contract → Outcome := fun _ => .escaped "boom"

/-- An outcome environment in which every invocation exits 0 with a clean
parseable JSON artifact on stdout. -/
def cleanEnv : Contract → Outcome :=
  fun _ => .completed 0 "\x7b\"issues\": []\x7d" "" 1

/-! ## Helper lemmas -/

theorem digitsVal_natDigitsRevCore :
    ∀ (fuel n : Nat), n < fuel → digitsVal (natDigitsRevCore fuel n) = n := by
  intro fuel
  induction fuel with
  | zero => intro n h; omega
  | succ fuel ih =>
    intro n h
    unfold natDigitsRevCore
    split
    · simp [digitsVal]
    · rename_i hge
      have hlt : n / 10 < fuel :=
        Nat.lt_of_lt_of_le (Nat.div_lt_self (by omega) (by decide)) (by omega)
      simp only [digitsVal, ih (n / 10) hlt]
      omega

theorem digitsVal_natDigitsRev (n : Nat) : digitsVal (natDigitsRev n) = n :=
  digitsVal_natDigitsRevCore (n + 1) n (Nat.lt_succ_self n)

theorem natDigitsRevCore_lt10 :
    ∀ (fuel n : Nat), ∀ d ∈ natDigitsRevCore fuel n, d < 10 := by
  intro fuel
  induction fuel with
  | zero => intro n d hd; simp [natDigitsRevCore] at hd
  | succ fuel ih =>
    intro n d hd
    unfold natDigitsRevCore at hd
    split at hd
    · rename_i h
      simp only [List.mem_singleton] at hd
      omega
    · rcases List.mem_cons.mp hd with rfl | hmem
      · omega
      · exact ih (n / 10) d hmem

theorem natDigitsRev_lt10 (n : Nat) : ∀ d ∈ natDigitsRev n, d < 10 :=
  natDigitsRevCore_lt10 (n + 1) n

theorem digitChar10_inj (d₁ d₂ : Nat) (h₁ : d₁ < 10) (h₂ : d₂ < 10)
    (h : digitChar10 d₁ = digitChar10 d₂) : d₁ = d₂ := by
  have e₁ : (digitChar10 d₁).toNat = 48 + d₁ := by interval_cases d₁ <;> rfl
  have e₂ : (digitChar10 d₂).toNat = 48 + d₂ := by interval_cases d₂ <;> rfl
  rw [h] at e₁
  omega

theorem map_digitChar10_inj :
    ∀ (l₁ l₂ : List Nat), (∀ d ∈ l₁, d < 10) → (∀ d ∈ l₂, d < 10) →
      l₁.map digitChar10 = l₂.map digitChar10 → l₁ = l₂
  | [], [], _, _, _ => rfl
  | [], _ :: _, _, _, h => by simp at h
  | _ :: _, [], _, _, h => by simp at h
  | a :: as, b :: bs, h₁, h₂, h => by
    simp only [List.map_cons, List.cons.injEq] at h
    have ha : a = b := digitChar10_inj a b (h₁ a (by simp)) (h₂ b (by simp)) h.1
    have hrest := map_digitChar10_inj as bs
      (fun d hd => h₁ d (by simp [hd])) (fun d hd => h₂ d (by simp [hd])) h.2
    simp [ha, hrest]

theorem pyIntStr_inj (m n : Nat) (h : pyIntStr m = pyIntStr n) : m = n := by
  unfold pyIntStr at h
  injection h with h1
  have h2 := map_digitChar10_inj _ _
    (fun d hd => natDigitsRev_lt10 m d (List.mem_reverse.mp hd))
    (fun d hd => natDigitsRev_lt10 n d (List.mem_reverse.mp hd)) h1
  have h3 : natDigitsRev m = natDigitsRev n := List.reverse_inj.mp h2
  calc m = digitsVal (natDigitsRev m) := (digitsVal_natDigitsRev m).symm
    _ = digitsVal (natDigitsRev n) := by rw [h3]
    _ = n := digitsVal_natDigitsRev n

theorem isPrefixB_iff : ∀ (l₁ l₂ : List Char), isPrefixB l₁ l₂ = true ↔ l₁ <+: l₂
  | [], l₂ => by simp [isPrefixB]
  | _ :: _, [] => by simp [isPrefixB]
  | a :: as, b :: bs => by
    simp [isPrefixB, List.cons_prefix_cons, isPrefixB_iff as bs]

theorem isInfixB_iff : ∀ (l₁ l₂ : List Char), isInfixB l₁ l₂ = true ↔ l₁ <:+: l₂
  | l₁, [] => by simp [isInfixB, List.isEmpty_iff]
  | l₁, c :: t => by
    rw [isInfixB, List.infix_cons_iff]
    simp [isPrefixB_iff, isInfixB_iff l₁ t]

theorem successIsFalse_iff (ms : List (String × Json)) :
    successIsFalse ms = true ↔ lookupLast ms "success" = some (Json.bool false) := by
  unfold successIsFalse
  cases h : lookupLast ms "success" with
  | none => simp
  | some v =>
    cases v with
    | null => simp
    | bool b => cases b <;> simp
    | num n => simp
    | str s => simp
    | arr l => simp
    | obj ms2 => simp

theorem errorTruthy_iff (ms : List (String × Json)) :
    errorTruthy ms = true ↔ ∃ v, lookupLast ms "error" = some v ∧ v.truthy = true := by
  unfold errorTruthy
  cases h : lookupLast ms "error" with
  | none => simp
  | some v => simp

/-! ## Claim theorems -/

/-- C1 (amended): completion tracking classifies an artifact as NOT analyzed
exactly when the strict decode of the full content fails, or the decoded value
is a mapping with success identically false, or the decoded value is a mapping
with a truthy error value (rather than merely a non-null one, as the claim
states); in particular an artifact containing `{"success": false, "error": "x"}`
is never in the analyzed set, and one containing `{"success": true, "issues": []}`
always is. -/
theorem C1_completion_classification :
    (∀ content : String, artifactAnalyzed content = false ↔ retryEligible content)
    ∧ artifactAnalyzed "\x7b\"success\": false, \"error\": \"x\"\x7d" = false
    ∧ artifactAnalyzed "\x7b\"success\": true, \"issues\": []\x7d" = true := by
  refine ⟨fun content => ?_, rfl, rfl⟩
  unfold artifactAnalyzed retryEligible
  cases h : jsonLoads content with
  | none => simp [h]
  | some data =>
    cases data with
    | obj ms =>
      simp only [h, Option.some.injEq, Json.obj.injEq]
      constructor
      · intro hfalse
        by_cases hs : successIsFalse ms = true
        · exact Or.inr (Or.inl ⟨ms, rfl, (successIsFalse_iff ms).mp hs⟩)
        · have hb : errorTruthy ms = true := by
            revert hfalse hs
            cases successIsFalse ms <;> cases errorTruthy ms <;> simp
          obtain ⟨v, hv, ht⟩ := (errorTruthy_iff ms).mp hb
          exact Or.inr (Or.inr ⟨ms, v, rfl, hv, ht⟩)
      · rintro (hnone | ⟨ms', hms, hsf⟩ | ⟨ms', v, hms, hv, ht⟩)
        · exact absurd hnone (by simp)
        · obtain rfl : ms = ms' := hms
          have := (successIsFalse_iff ms).mpr hsf
          simp [this]
        · obtain rfl : ms = ms' := hms
          have : errorTruthy ms = true := (errorTruthy_iff ms).mpr ⟨v, hv, ht⟩
          simp [this]
    | null => simp [h]
    | bool b => simp [h]
    | num n => simp [h]
    | str s => simp [h]
    | arr l => simp [h]

/-- C1, counterexample to the claim as stated: the artifact `{"error": ""}`
has a non-null error value, so the claim classifies it as NOT analyzed, but
the code's truthiness test accepts it into the analyzed set. -/
theorem C1_counterexample :
    ¬ ((artifactAnalyzed "\x7b\"error\": \"\"\x7d" = false) ↔
        specRetryEligible "\x7b\"error\": \"\"\x7d") := by
  intro hiff
  have hspec : specRetryEligible "\x7b\"error\": \"\"\x7d" :=
    Or.inr (Or.inr ⟨[("error", Json.str "")], Json.str "", rfl, rfl,
      fun hnull => Json.noConfusion hnull⟩)
  exact absurd (hiff.mpr hspec) (by decide)

/-- C2: for every outcome branch handled inside `analyze_single_contract`
(exit code zero, non-zero exit, timeout expiry, any other caught invocation
exception), after the call exactly one artifact file exists at the
deterministic path `reports/mythril/<stem>.json`: the artifact slot for the
stem is occupied, the returned record points at that path, and no other
artifact slot is touched. -/
theorem C2_artifact_invariant :
    ∀ (stem relPath : String) (timeout : Nat) (o : Outcome) (fs : FS),
      o.isEscaped = false →
      ∃ rec fs', analyze_single_contract stem relPath timeout o fs = some (rec, fs')
        ∧ (∃ content, fs'.artifacts stem = some content)
        ∧ rec.output_file = some (outputPath stem)
        ∧ (∀ s, s ≠ stem → fs'.artifacts s = fs.artifacts s) := by
  intro stem relPath timeout o fs hno
  cases o with
  | completed rc stdout stderr elapsed =>
    refine ⟨_, _, rfl, ?_, rfl, ?_⟩
    · simp only [analyze_single_contract]
      split <;> exact ⟨stdout, by simp [updateMap]⟩
    · intro s hs
      simp only [analyze_single_contract]
      split <;> simp [updateMap, hs]
  | timedOut =>
    exact ⟨_, _, rfl, ⟨render (timeoutArtifact timeout), by simp [updateMap]⟩, rfl,
      fun s hs => by simp [updateMap, hs]⟩
  | raised msg =>
    exact ⟨_, _, rfl, ⟨render (exceptionArtifact msg), by simp [updateMap]⟩, rfl,
      fun s hs => by simp [updateMap, hs]⟩
  | escaped msg => exact absurd hno (by simp [Outcome.isEscaped])

/-- C2 witness: the invariant instantiated at a concrete successful run. -/
theorem C2_artifact_invariant_witness :
    Outcome.isEscaped (.completed 0 "out" "" 3) = false
    ∧ ∃ rec fs',
        analyze_single_contract "Foo" "contracts/Foo.sol" 120 (.completed 0 "out" "" 3) emptyFS
          = some (rec, fs')
        ∧ (∃ content, fs'.artifacts "Foo" = some content)
        ∧ rec.output_file = some (outputPath "Foo")
        ∧ (∀ s, s ≠ "Foo" → fs'.artifacts s = emptyFS.artifacts s) :=
  ⟨rfl, C2_artifact_invariant "Foo" "contracts/Foo.sol" 120 (.completed 0 "out" "" 3) emptyFS rfl⟩

/-- C3: tolerant extraction decodes exactly the substring running from the
first opening brace to the last closing brace of the raw text, and on the
example artifact with garbage before and after the embedded object the
aggregation categorizes the item as Success (No Issues). -/
theorem C3_tolerant_extraction :
    (∀ (content : String) (i j : Nat),
      firstBraceIdx content = some i → lastBraceIdx content = some j →
      ∀ v : Json,
        extract_json_from_file content = (v, "") ↔
          jsonLoads (sliceStr content i (j + 1)) = some v)
    ∧ summaryItemCategory tolerantExample = some "Success (No Issues)" := by
  refine ⟨fun content i j hi hj v => ?_, rfl⟩
  unfold extract_json_from_file
  rw [hi, hj]
  cases h : jsonLoads (sliceStr content i (j + 1)) with
  | none => simp [h]
  | some w => simp [h]

/-- C3 witness: the generic substring characterization instantiated at the
example artifact text. -/
theorem C3_tolerant_extraction_witness :
    firstBraceIdx tolerantExample = some 15
    ∧ lastBraceIdx tolerantExample = some 45
    ∧ (extract_json_from_file tolerantExample =
          (Json.obj [("success", Json.bool true), ("issues", Json.arr [])], "") ↔
        jsonLoads (sliceStr tolerantExample 15 46) =
          some (Json.obj [("success", Json.bool true), ("issues", Json.arr [])])) :=
  ⟨rfl, rfl, C3_tolerant_extraction.1 tolerantExample 15 45 rfl rfl
    (Json.obj [("success", Json.bool true), ("issues", Json.arr [])])⟩

/-- C4: on timeout expiry `analyze_single_contract` synthesizes and persists
as the artifact exactly the JSON value
`{"success": false, "error": "Analysis timed out after <N> seconds", "issues": []}`
(raw stdout is not written — the artifact is exactly the dumped failure
record) and returns a record whose status tag is `timeout`; the dumped text
decodes back to exactly that JSON value (checked at the default budget). -/
theorem C4_timeout_path :
    (∀ (stem relPath : String) (timeout : Nat) (fs : FS),
      analyze_single_contract stem relPath timeout .timedOut fs =
        some ({ contract := stem, path := relPath, status := "timeout", analysis_time := timeout, output_file := some (outputPath stem), error := none },
              { fs with artifacts := updateMap fs.artifacts stem (render (Json.obj [("success", Json.bool false), ("error", Json.str ("Analysis timed out after " ++ pyIntStr timeout ++ " seconds")), ("issues", Json.arr [])])) }))
    ∧ jsonLoads (render (timeoutArtifact 120)) = some (timeoutArtifact 120) := by
  exact ⟨fun stem relPath timeout fs => rfl, rfl⟩

/-- C5 (amended): for a payload in the explicit-failure branch (falsy success,
error a nonempty string) the sub-classification matches the error text against
the three known phrases in order and otherwise yields Analysis Error.  The
claim's "any other non-null error" is too wide: an empty-string error is
non-null but falsy, and such a payload is categorized Unknown
(see the counterexample). -/
theorem C5_error_subclassification :
    ∀ (ms : List (String × Json)) (e : String),
      Json.truthy ((lookupLast ms "success").getD (Json.bool false)) = false →
      lookupLast ms "error" = some (Json.str e) →
      e ≠ "" →
      categorize_result (Json.obj ms) = some
        (if strContains "Solc experienced a fatal error" e then "Compilation Error"
         else if strContains "ParserError" e then "Parser Error"
         else if strContains "SolidityVersionMismatch" e then "Version Mismatch"
         else "Analysis Error") := by
  intro ms e hs he hne
  have hms : ms ≠ [] := by
    intro hnil
    rw [hnil] at he
    exact Option.noConfusion he
  have htr : (Json.obj ms).truthy = true := by
    simp [Json.truthy, List.isEmpty_iff, hms]
  have htre : (Json.str e).truthy = true := by
    simp [Json.truthy, hne]
  unfold categorize_result
  rw [htr]
  simp only [Bool.not_true, Bool.false_eq_true, if_false, he, Option.getD_some, hs,
    Bool.not_false, htre, Bool.and_self, if_true, pyIn]
  cases h1 : strContains "Solc experienced a fatal error" e with
  | true => simp
  | false =>
    cases h2 : strContains "ParserError" e with
    | true => simp
    | false =>
      cases h3 : strContains "SolidityVersionMismatch" e with
      | true => simp
      | false => simp

/-- C5 counterexample: the payload with success false and an empty-string
error has a non-null error, yet it is categorized Unknown, not Analysis
Error. -/
theorem C5_counterexample :
    categorize_result (Json.obj [("success", Json.bool false), ("error", Json.str "")])
      = some "Unknown"
    ∧ categorize_result (Json.obj [("success", Json.bool false), ("error", Json.str "")])
      ≠ some "Analysis Error" := by
  exact ⟨rfl, by decide⟩

/-- C5 witness: the sub-classification applied at a concrete payload whose
error text matches none of the known phrases. -/
theorem C5_error_subclassification_witness :
    Json.truthy ((lookupLast [("success", Json.bool false), ("error", Json.str "boom")] "success").getD (Json.bool false)) = false
    ∧ lookupLast [("success", Json.bool false), ("error", Json.str "boom")] "error" = some (Json.str "boom")
    ∧ "boom" ≠ ""
    ∧ categorize_result (Json.obj [("success", Json.bool false), ("error", Json.str "boom")]) = some
        (if strContains "Solc experienced a fatal error" "boom" then "Compilation Error"
         else if strContains "ParserError" "boom" then "Parser Error"
         else if strContains "SolidityVersionMismatch" "boom" then "Version Mismatch"
         else "Analysis Error") :=
  ⟨rfl, rfl, by decide,
    C5_error_subclassification [("success", Json.bool false), ("error", Json.str "boom")]
      "boom" rfl rfl (by decide)⟩

/-- C6: discovery excludes a file under a mocks directory, a file whose stem
contains Mock, a file whose source text contains `abstract contract`, and an
interface-named file such as IERC20.sol, while a file named Iou.sol (capital I
followed by a lowercase letter) survives discovery. -/
theorem C6_discovery_exclusions :
    get_all_contracts [⟨["contracts", "mocks", "Foo.sol"], "Foo", some "contract Foo"⟩] = []
    ∧ get_all_contracts [⟨["contracts", "MockToken.sol"], "MockToken", some "contract MockToken"⟩] = []
    ∧ get_all_contracts [⟨["contracts", "Abs.sol"], "Abs", some "abstract contract Abs"⟩] = []
    ∧ get_all_contracts [⟨["contracts", "IERC20.sol"], "IERC20", some "interface IERC20"⟩] = []
    ∧ get_all_contracts [⟨["contracts", "Iou.sol"], "Iou", some "contract Iou"⟩] =
        [⟨["contracts", "Iou.sol"], "Iou", some "contract Iou"⟩] :=
  ⟨rfl, rfl, rfl, rfl, rfl⟩

/-- C8 counterexample: a directory literally named interface_utils does NOT
match the de-starred token of any exclusion pattern (the containment test runs
the other way around), so the file under it survives discovery, contradicting
the claim that it is excluded. -/
theorem C8_counterexample :
    matchesPathPatterns ["contracts", "interface_utils", "Token.sol"] = false
    ∧ get_all_contracts [⟨["contracts", "interface_utils", "Token.sol"], "Token", some "contract Token"⟩] =
        [⟨["contracts", "interface_utils", "Token.sol"], "Token", some "contract Token"⟩] :=
  ⟨rfl, rfl⟩

/-- C8 (amended): the path-segment exclusion tests whether each path segment
is a substring OF the wildcard-stripped exclusion token (not the token a
substring of the segment).  Consequently a directory named interface_utils
does not match the token derived from the interfaces pattern, while a
directory whose name is a substring of a stripped token, such as face, does
match and its file is excluded. -/
theorem C8_segment_match_direction :
    (∀ parts : List String,
      matchesPathPatterns parts = true ↔
        ∃ pat ∈ exclude_patterns, ∃ part ∈ parts,
          part.toList <:+: (stripStars pat).toList)
    ∧ matchesPathPatterns ["contracts", "face", "Token.sol"] = true
    ∧ matchesPathPatterns ["contracts", "interface_utils", "Token.sol"] = false := by
  refine ⟨fun parts => ?_, rfl, rfl⟩
  unfold matchesPathPatterns strContains
  simp only [List.any_eq_true, isInfixB_iff]

/-- Helper: the category computed for a successful payload with a nonempty
issue list is the label parameterized by the decimal issue count. -/
theorem categorize_success_issues (l : List Json) (hl : l ≠ []) :
    categorize_result (Json.obj [("success", Json.bool true), ("issues", Json.arr l)]) =
      some ("Success (" ++ pyIntStr l.length ++ " Issues)") := by
  cases l with
  | nil => exact absurd rfl hl
  | cons x xs => rfl

/-- C9: a successful payload with exactly one issue is categorized exactly
Success (1 Issues), one with an empty issue list Success (No Issues), and
distinct issue counts always produce distinct category labels. -/
theorem C9_categorization_boundary :
    categorize_result (Json.obj [("success", Json.bool true), ("issues", Json.arr [Json.obj [("title", Json.str "X"), ("severity", Json.str "High")]])]) = some "Success (1 Issues)"
    ∧ categorize_result (Json.obj [("success", Json.bool true), ("issues", Json.arr [])]) = some "Success (No Issues)"
    ∧ (∀ l₁ l₂ : List Json, l₁ ≠ [] → l₂ ≠ [] → l₁.length ≠ l₂.length →
        categorize_result (Json.obj [("success", Json.bool true), ("issues", Json.arr l₁)]) ≠
          categorize_result (Json.obj [("success", Json.bool true), ("issues", Json.arr l₂)])) := by
  refine ⟨rfl, rfl, fun l₁ l₂ h₁ h₂ hne hcat => ?_⟩
  rw [categorize_success_issues l₁ h₁, categorize_success_issues l₂ h₂] at hcat
  injection hcat with hstr
  have hdata := congrArg String.data hstr
  simp only [String.data_append] at hdata
  have h1 := List.append_cancel_right hdata
  have h2 := List.append_cancel_left h1
  exact hne (pyIntStr_inj _ _ (String.ext h2))

/-- C9 witness: the distinct-count separation applied at one and two issues. -/
theorem C9_categorization_boundary_witness :
    ([Json.null] : List Json) ≠ []
    ∧ ([Json.null, Json.null] : List Json) ≠ []
    ∧ ([Json.null] : List Json).length ≠ ([Json.null, Json.null] : List Json).length
    ∧ categorize_result (Json.obj [("success", Json.bool true), ("issues", Json.arr [Json.null])]) ≠
        categorize_result (Json.obj [("success", Json.bool true), ("issues", Json.arr [Json.null, Json.null])]) :=
  ⟨List.cons_ne_nil _ _, List.cons_ne_nil _ _, by decide,
    C9_categorization_boundary.2.2 [Json.null] [Json.null, Json.null]
      (List.cons_ne_nil _ _) (List.cons_ne_nil _ _) (by decide)⟩

/-- Helper: when a target's outcome is normal completion, the batch step
writes exactly its stdout into the target's artifact slot. -/
theorem batchStep_artifacts_completed (timeout : Nat) (env : Contract → Outcome)
    (acc : List AnalysisRecord × FS) (c : Contract) (rc : Int) (stdout stderr : String)
    (elapsed : Nat) (hco : env c = .completed rc stdout stderr elapsed) :
    (batchStep timeout env acc c).2.artifacts = updateMap acc.2.artifacts c.stem stdout := by
  unfold batchStep
  rw [hco]
  by_cases hcond : rc ≠ 0 ∧ stderr ≠ ""
  · simp [analyze_single_contract, hcond]
  · simp only [analyze_single_contract, if_neg hcond]

/-- Helper: a batch fold over targets whose outcomes all reflect clean success
makes every already-analyzed stem stay analyzed and every folded target's stem
become analyzed. -/
theorem batch_fold_analyzed (timeout : Nat) (env : Contract → Outcome) :
    ∀ (l : List Contract), (∀ c ∈ l, goodOutcome (env c)) →
      ∀ (acc : List AnalysisRecord × FS) (stem : String),
        (isAnalyzed acc.2 stem = true ∨ ∃ c ∈ l, c.stem = stem) →
        isAnalyzed (l.foldl (batchStep timeout env) acc).2 stem = true := by
  intro l
  induction l with
  | nil =>
    intro _ acc stem h
    rcases h with h | ⟨c, hc, _⟩
    · simpa using h
    · simp at hc
  | cons c cs ih =>
    intro hgood acc stem h
    rw [List.foldl_cons]
    obtain ⟨rc, stdout, stderr, elapsed, hco, hart⟩ := hgood c (by simp)
    have harts := batchStep_artifacts_completed timeout env acc c rc stdout stderr elapsed hco
    apply ih (fun c' hc' => hgood c' (by simp [hc']))
    rcases h with hval | ⟨c', hc', hstem⟩
    · left
      unfold isAnalyzed at hval ⊢
      rw [harts]
      unfold updateMap
      by_cases hcs : stem = c.stem
      · simp [hcs, hart]
      · simp only [if_neg hcs]
        exact hval
    · rcases List.mem_cons.mp hc' with rfl | hmem
      · left
        unfold isAnalyzed
        rw [harts]
        unfold updateMap
        simp [← hstem, hart]
      · exact Or.inr ⟨c', hmem, hstem⟩

/-- C7 (amended): when every target's first-run outcome is a completion whose
artifact classifies as analyzed, a second skip-mode batch over the same
targets dispatches nothing — every contract given an artifact by the first
run is filtered out by the completion set.  (As stated the claim is false:
failure artifacts — timeouts, errors — are deliberately classified as not
analyzed and are re-dispatched; see the counterexample.) -/
theorem C7_skip_idempotence :
    ∀ (contracts : List Contract) (timeout : Nat) (env : Contract → Outcome) (fs : FS),
      (∀ c ∈ contracts, goodOutcome (env c)) →
      (run_batch_analysis contracts true timeout env
          (run_batch_analysis contracts true timeout env fs).fs).dispatched = [] := by
  intro contracts timeout env fs hgood
  have key : ∀ c ∈ contracts,
      isAnalyzed ((run_batch_analysis contracts true timeout env fs).fs) c.stem = true := by
    intro c hc
    have hrw : (run_batch_analysis contracts true timeout env fs).fs =
        ((contracts.filter (fun c => !isAnalyzed fs c.stem)).foldl
          (batchStep timeout env) ([], fs)).2 := rfl
    rw [hrw]
    apply batch_fold_analyzed timeout env _
      (fun c' hc' => hgood c' (List.mem_filter.mp hc').1)
    by_cases hA0 : isAnalyzed fs c.stem = true
    · exact Or.inl hA0
    · refine Or.inr ⟨c, List.mem_filter.mpr ⟨hc, ?_⟩, rfl⟩
      simp [Bool.not_eq_true'] at hA0 ⊢
      exact hA0
  show List.filter _ contracts = []
  rw [List.filter_eq_nil_iff]
  intro c hc
  simp [key c hc]

/-- C7 witness: with every invocation exiting 0 and writing a clean JSON
artifact, the second skip-mode run dispatches nothing. -/
theorem C7_skip_idempotence_witness :
    (∀ c ∈ [cFoo], goodOutcome (cleanEnv c))
    ∧ (run_batch_analysis [cFoo] true 120 cleanEnv
        (run_batch_analysis [cFoo] true 120 cleanEnv emptyFS).fs).dispatched = [] :=
  ⟨fun _ _ => ⟨0, "\x7b\"issues\": []\x7d", "", 1, rfl, rfl⟩,
    C7_skip_idempotence [cFoo] 120 cleanEnv emptyFS
      (fun _ _ => ⟨0, "\x7b\"issues\": []\x7d", "", 1, rfl, rfl⟩)⟩

/-- C7 counterexample: a first run whose single invocation times out writes an
artifact (so the target was "given an artifact by the first run"), yet the
second skip-mode run dispatches that target again — the run is not a no-op,
contradicting the zero-invocations claim. -/
theorem C7_counterexample :
    ((run_batch_analysis [cFoo] true 120 timeoutEnv emptyFS).fs.artifacts "Foo").isSome = true
    ∧ (run_batch_analysis [cFoo] true 120 timeoutEnv
        (run_batch_analysis [cFoo] true 120 timeoutEnv emptyFS).fs).dispatched = [cFoo] :=
  ⟨rfl, rfl⟩

/-- Helper: the status of any record returned by `analyze_single_contract` is
one of success, error, timeout, exception. -/
theorem analyze_status_mem (stem relPath : String) (timeout : Nat) (o : Outcome) (fs : FS)
    (rec : AnalysisRecord) (fs' : FS)
    (h : analyze_single_contract stem relPath timeout o fs = some (rec, fs')) :
    rec.status ∈ (["success", "error", "timeout", "exception"] : List String) := by
  cases o with
  | completed rc stdout stderr elapsed =>
    simp only [analyze_single_contract, Option.some.injEq, Prod.mk.injEq] at h
    obtain ⟨hrec, _⟩ := h
    rw [← hrec]
    by_cases hrc : rc = 0 <;> simp [hrc]
  | timedOut =>
    simp only [analyze_single_contract, Option.some.injEq, Prod.mk.injEq] at h
    obtain ⟨hrec, _⟩ := h
    rw [← hrec]
    simp
  | raised msg =>
    simp only [analyze_single_contract, Option.some.injEq, Prod.mk.injEq] at h
    obtain ⟨hrec, _⟩ := h
    rw [← hrec]
    simp
  | escaped msg => simp [analyze_single_contract] at h

/-- Helper: every record accumulated by the batch fold has one of the five
statuses success, error, timeout, exception, failed. -/
theorem batch_fold_status (timeout : Nat) (env : Contract → Outcome) :
    ∀ (l : List Contract) (acc : List AnalysisRecord × FS),
      (∀ r ∈ acc.1, r.status ∈ (["success", "error", "timeout", "exception", "failed"] : List String)) →
      ∀ r ∈ (l.foldl (batchStep timeout env) acc).1,
        r.status ∈ (["success", "error", "timeout", "exception", "failed"] : List String) := by
  intro l
  induction l with
  | nil => intro acc hacc r hr; exact hacc r hr
  | cons c cs ih =>
    intro acc hacc r hr
    rw [List.foldl_cons] at hr
    refine ih _ ?_ r hr
    intro r' hr'
    unfold batchStep at hr'
    cases ha : analyze_single_contract c.stem c.relPath timeout (env c) acc.2 with
    | some p =>
      obtain ⟨r2, fs2⟩ := p
      rw [ha] at hr'
      rcases List.mem_append.mp hr' with hmem | hmem
      · exact hacc r' hmem
      · simp only [List.mem_singleton] at hmem
        subst hmem
        have h4 := analyze_status_mem c.stem c.relPath timeout (env c) acc.2 _ _ ha
        simp only [List.mem_cons, List.not_mem_nil, or_false] at h4 ⊢
        tauto
    | none =>
      rw [ha] at hr'
      rcases List.mem_append.mp hr' with hmem | hmem
      · exact hacc r' hmem
      · simp only [List.mem_singleton] at hmem
        subst hmem
        simp [failedRecord]

/-- C10 (amended): every record returned by `analyze_single_contract` has a
status in the set of success, error, timeout and exception, and every record
produced by batch orchestration has a status in that set extended with failed
(the status the orchestrator assigns when a worker exception escapes the
single-target handler).  The claim's set is wrong on two counts: no record
ever carries issues-found (issue counts only affect the printed progress
line), and the failed status falls outside the claimed set — see the
counterexample. -/
theorem C10_status_set :
    (∀ (stem relPath : String) (timeout : Nat) (o : Outcome) (fs : FS)
        (rec : AnalysisRecord) (fs' : FS),
      analyze_single_contract stem relPath timeout o fs = some (rec, fs') →
      rec.status ∈ (["success", "error", "timeout", "exception"] : List String))
    ∧ (∀ (contracts : List Contract) (skip : Bool) (timeout : Nat)
        (env : Contract → Outcome) (fs : FS),
      ∀ r ∈ (run_batch_analysis contracts skip timeout env fs).records,
        r.status ∈ (["success", "error", "timeout", "exception", "failed"] : List String)) :=
  ⟨analyze_status_mem, fun contracts skip timeout env fs r hr =>
    batch_fold_status timeout env _ ([], fs) (by simp) r hr⟩

/-- C10 counterexample: a batch in which the worker exception escapes the
single-target handler produces a record whose status is failed, which is not
in the claimed status set (which instead names issues-found, a status no
record ever carries). -/
theorem C10_counterexample :
    (run_batch_analysis [cFoo] false 120 escapeEnv emptyFS).records = [failedRecord cFoo "boom"]
    ∧ (failedRecord cFoo "boom").status = "failed"
    ∧ "failed" ∉ (["success", "issues-found", "error", "timeout", "exception"] : List String) :=
  ⟨rfl, rfl, by decide⟩

/-- C10 witness: the status invariant applied at a concrete timeout run and at
a concrete failed batch record. -/
theorem C10_status_set_witness :
    (analyze_single_contract "Foo" "contracts/Foo.sol" 120 .timedOut emptyFS =
      some ({ contract := "Foo", path := "contracts/Foo.sol", status := "timeout", analysis_time := 120, output_file := some (outputPath "Foo"), error := none },
            { emptyFS with artifacts := updateMap emptyFS.artifacts "Foo" (render (timeoutArtifact 120)) }))
    ∧ ("timeout" ∈ (["success", "error", "timeout", "exception"] : List String))
    ∧ failedRecord cFoo "boom" ∈ (run_batch_analysis [cFoo] false 120 escapeEnv emptyFS).records
    ∧ (failedRecord cFoo "boom").status ∈ (["success", "error", "timeout", "exception", "failed"] : List String) := by
  refine ⟨rfl, ?_, by decide, ?_⟩
  · exact C10_status_set.1 "Foo" "contracts/Foo.sol" 120 .timedOut emptyFS _ _ rfl
  · exact C10_status_set.2 [cFoo] false 120 escapeEnv emptyFS (failedRecord cFoo "boom") (by decide)

end Mythril
